import Mathlib

/-!
Verification of the credit-scoring logic in `fast_mcp_customer_eval.py`.

The Python module exposes two MCP tools, `classify_customer` and
`score_breakdown`, both built on `_sanitize_and_cast` (input validation)
and `_compute_scores` (pure scoring engine).  We embed the module
shallowly in Lean:

* Python's real-valued arithmetic (floats holding currency values and
  score fractions) is modelled exactly over `ℚ`; the module's constants
  (`0.5`, `0.3`, `0.2`, the caps, base and bonus) are the rational
  numbers the source text denotes.
* JSON / Python values arriving in the input mapping are modelled by
  `PyVal` (integer, float, or string); Python's `float(...)` and
  `int(...)` conversions, including their behaviour on decimal strings
  and their truncation-toward-zero on floats, are modelled by
  `pyFloatOf` / `pyIntOf` with a small decimal-literal parser for the
  string case.
* Python's `round` (round-half-to-even, i.e. banker's rounding) is
  `roundHE`; `round(x, n)` is `roundDec n x`.
* The `ValueError` raised by the sanitizer and caught at the tool
  boundary becomes `Except`; the details text of a conversion failure
  is abstracted to a fixed message (the Python message embeds the inner
  exception's text, which differs per failing value).
-/

namespace CreditEval

/-- A Python/JSON value as it may appear in the input mapping:
an integer, a float (modelled as an exact rational), or a string. -/
inductive PyVal where
  | pyInt (n : ℤ)
  | pyFloat (q : ℚ)
  | pyStr (s : String)
deriving DecidableEq

/-- Numeric value of a decimal digit character, `none` on a non-digit. -/
def digitVal (c : Char) : Option ℕ :=
  if c.isDigit then some (c.toNat - 48) else none

/-- Reads a (possibly empty) run of decimal digits as a natural number;
fails if any character is not a digit. -/
def digitsToNat (cs : List Char) : Option ℕ :=
  cs.foldlM (fun acc c => (digitVal c).map (fun d => acc * 10 + d)) 0

/-- Python `int(s)` on a string: optional sign followed by a non-empty
run of decimal digits; anything else (in particular a decimal point, as
in `"2.9"`) raises `ValueError`, modelled as `none`. -/
def pyIntOfStr (s : String) : Option ℤ :=
  match s.data with
  | '-' :: rest =>
      if rest = [] then none else (digitsToNat rest).map (fun n => -(n : ℤ))
  | '+' :: rest =>
      if rest = [] then none else (digitsToNat rest).map (fun n => (n : ℤ))
  | cs =>
      if cs = [] then none else (digitsToNat cs).map (fun n => (n : ℤ))

/-- Unsigned decimal literal: digits, optionally with one decimal point
(`"12"`, `"12.5"`, `"12."`, `".5"`); at least one digit overall. -/
def parseUnsignedDec (cs : List Char) : Option ℚ :=
  let ip := cs.takeWhile (fun c => c ≠ '.')
  let rest := cs.dropWhile (fun c => c ≠ '.')
  match rest with
  | [] => if ip = [] then none else (digitsToNat ip).map (fun n => (n : ℚ))
  | _ :: fp =>
      if ip = [] ∧ fp = [] then none
      else
        match digitsToNat ip, digitsToNat fp with
        | some a, some b =>
            some (((a * 10 ^ fp.length + b : ℕ) : ℚ) / ((10 : ℚ) ^ fp.length))
        | _, _ => none

/-- Python `float(s)` on a string: optional sign followed by a decimal
literal.  (Exponent, `inf`/`nan` and surrounding whitespace forms are
not needed by any claim and are omitted from the model.) -/
def pyFloatOfStr (s : String) : Option ℚ :=
  match s.data with
  | '-' :: rest => (parseUnsignedDec rest).map (fun q => -q)
  | '+' :: rest => parseUnsignedDec rest
  | cs => parseUnsignedDec cs

/-- Truncation toward zero, the behaviour of Python `int(float)`. -/
def truncQ (q : ℚ) : ℤ := if 0 ≤ q then ⌊q⌋ else ⌈q⌉

/-- Python `float(x)` applied to an input value. -/
def pyFloatOf : PyVal → Option ℚ
  | .pyInt n => some (n : ℚ)
  | .pyFloat q => some q
  | .pyStr s => pyFloatOfStr s

/-- Python `int(x)` applied to an input value: identity on integers,
truncation toward zero on floats, strict integer parsing on strings. -/
def pyIntOf : PyVal → Option ℤ
  | .pyInt n => some n
  | .pyFloat q => some (truncQ q)
  | .pyStr s => pyIntOfStr s

/-- Python `round(x)`: round half to even (banker's rounding),
returning an integer. -/
def roundHE (q : ℚ) : ℤ :=
  if q - ⌊q⌋ < 1 / 2 then ⌊q⌋
  else if 1 / 2 < q - ⌊q⌋ then ⌊q⌋ + 1
  else if 2 ∣ ⌊q⌋ then ⌊q⌋ else ⌊q⌋ + 1

/-- Python `round(x, n)`: round half to even at `n` decimal digits. -/
def roundDec (n : ℕ) (q : ℚ) : ℚ :=
  ((roundHE (q * 10 ^ n) : ℚ)) / 10 ^ n

-- ----- configuration constants of the module -----

def ASSET_CAP : ℚ := 10000000000
def SALARY_CAP : ℚ := 200000000
def EXP_CAP : ℚ := 40
def BASE_SCORE : ℚ := 500
def BONUS_POOL : ℚ := 300

/-- Weights `WEIGHTS = {"asset": 0.5, "salary": 0.3, "experience": 0.2}`. -/
structure ScoreWeights where
  asset : ℚ
  salary : ℚ
  experience : ℚ
deriving DecidableEq

def WEIGHTS : ScoreWeights := ⟨1 / 2, 3 / 10, 1 / 5⟩

/-- The validated record produced by the sanitizer (`CreditInputs`). -/
structure CreditInputs where
  total_asset_value : ℚ
  monthly_salary : ℚ
  work_experiences : ℤ
  age : ℤ
deriving DecidableEq

/-- The raw input mapping: each of the four recognised keys is either
absent (`none`) or bound to some Python/JSON value.  Unknown keys are
ignored by the code and hence absent from the model. -/
structure RawInputs where
  total_asset_value : Option PyVal
  monthly_salary : Option PyVal
  work_experiences : Option PyVal
  age : Option PyVal
deriving DecidableEq

/-- Lookup `inputs.get(key, 0)`: the stored value, defaulting to integer 0. -/
def getField (v : Option PyVal) : PyVal := v.getD (.pyInt 0)

/-- Sanitizer `_sanitize_and_cast`: convert the four fields (`float` for asset and
salary, `int` for experience and age), failing on a conversion error or
on any negative value.  The detail string of a conversion failure is
abstracted to a fixed text. -/
def sanitize_and_cast (inputs : RawInputs) : Except String CreditInputs :=
  match pyFloatOf (getField inputs.total_asset_value),
        pyFloatOf (getField inputs.monthly_salary),
        pyIntOf (getField inputs.work_experiences),
        pyIntOf (getField inputs.age) with
  | some asset, some salary, some exp, some age =>
      if asset < 0 ∨ salary < 0 ∨ exp < 0 ∨ age < 0 then
        Except.error "Numeric inputs must be non-negative."
      else
        Except.ok ⟨asset, salary, exp, age⟩
  | _, _, _, _ => Except.error "Invalid input types"

/-- Per-factor entry of the breakdown (`components` in the response). -/
structure Component where
  value : ℚ
  cap : ℚ
  norm : ℚ
  points : ℚ
deriving DecidableEq

/-- The full result of `_compute_scores`. -/
structure ComputationResult where
  credit_score : ℤ
  raw_score : ℚ
  classification : String
  reason_class : String
  asset : Component
  salary : Component
  experience : Component
  base : ℚ
  bonus_pool : ℚ
  weights : ScoreWeights
deriving DecidableEq

/-- Scoring engine `_compute_scores`. -/
def compute_scores (ci : CreditInputs) : ComputationResult :=
  let asset := max 0 ci.total_asset_value
  let salary := max 0 ci.monthly_salary
  let exp := max 0 ((ci.work_experiences : ℚ))
  let age := max 0 ci.age
  let asset_norm := min (asset / ASSET_CAP) 1
  let salary_norm := min (salary / SALARY_CAP) 1
  let exp_norm := min (exp / EXP_CAP) 1
  let asset_points := BONUS_POOL * WEIGHTS.asset
  let salary_points := BONUS_POOL * WEIGHTS.salary
  let exp_points := BONUS_POOL * WEIGHTS.experience
  let asset_score := asset_norm * asset_points
  let salary_score := salary_norm * salary_points
  let exp_score := exp_norm * exp_points
  let raw_score := BASE_SCORE + asset_score + salary_score + exp_score
  let credit_score := roundHE (max BASE_SCORE (min raw_score (BASE_SCORE + BONUS_POOL)))
  let cls :=
    if credit_score ≥ 720 ∧ 25 ≤ age ∧ age ≤ 65 then
      ("high-value", "Điểm cao và độ tuổi trong ngưỡng ổn định thu nhập/tiêu dùng.")
    else if credit_score ≥ 640 ∧ 21 ≤ age ∧ age ≤ 70 then
      ("standard", "Điểm khá và độ tuổi phù hợp, rủi ro trung bình.")
    else
      ("risk", "Điểm thấp hoặc độ tuổi ngoài ngưỡng ưu tiên, rủi ro cao hơn.")
  { credit_score := credit_score
    raw_score := raw_score
    classification := cls.1
    reason_class := cls.2
    asset := ⟨asset, ASSET_CAP, roundDec 6 asset_norm, roundDec 2 asset_score⟩
    salary := ⟨salary, SALARY_CAP, roundDec 6 salary_norm, roundDec 2 salary_score⟩
    experience := ⟨exp, EXP_CAP, roundDec 6 exp_norm, roundDec 2 exp_score⟩
    base := BASE_SCORE
    bonus_pool := BONUS_POOL
    weights := WEIGHTS }

/-- The structured error response `{"error": ..., "details": ...}`. -/
structure ErrorShape where
  error : String
  details : String
deriving DecidableEq

/-- Response shape of `classify_customer` on success: `credit_score`,
`classification` and the fields of the nested `reasons` object that
depend on the input. -/
structure ClassifyOutput where
  credit_score : ℤ
  classification : String
  asset_score : ℚ
  salary_score : ℚ
  experience_score : ℚ
  asset_norm : ℚ
  salary_norm : ℚ
  experience_norm : ℚ
  age : ℤ
  reason : String
deriving DecidableEq

/-- MCP tool `classify_customer`. -/
def classify_customer (inputs : RawInputs) : Except ErrorShape ClassifyOutput :=
  match sanitize_and_cast inputs with
  | .error e => .error ⟨"invalid_input", e⟩
  | .ok ci =>
      let calcR := compute_scores ci
      .ok { credit_score := calcR.credit_score
            classification := calcR.classification
            asset_score := calcR.asset.points
            salary_score := calcR.salary.points
            experience_score := calcR.experience.points
            asset_norm := calcR.asset.norm
            salary_norm := calcR.salary.norm
            experience_norm := calcR.experience.norm
            age := ci.age
            reason := calcR.reason_class }

/-- Response shape of `score_breakdown` on success. -/
structure BreakdownOutput where
  credit_score : ℤ
  raw_score : ℚ
  asset : Component
  salary : Component
  experience : Component
  weights : ScoreWeights
  base : ℚ
  bonus_pool : ℚ
deriving DecidableEq

/-- MCP tool `score_breakdown`. -/
def score_breakdown (inputs : RawInputs) : Except ErrorShape BreakdownOutput :=
  match sanitize_and_cast inputs with
  | .error e => .error ⟨"invalid_input", e⟩
  | .ok ci =>
      let calcR := compute_scores ci
      .ok { credit_score := calcR.credit_score
            raw_score := calcR.raw_score
            asset := calcR.asset
            salary := calcR.salary
            experience := calcR.experience
            weights := calcR.weights
            base := calcR.base
            bonus_pool := calcR.bonus_pool }

/-- The raw (pre-clamp) score as a standalone expression: the zeta-expansion
of `raw_score` inside `_compute_scores`. -/
def rawOf (ci : CreditInputs) : ℚ :=
  BASE_SCORE
    + min (max 0 ci.total_asset_value / ASSET_CAP) 1 * (BONUS_POOL * WEIGHTS.asset)
    + min (max 0 ci.monthly_salary / SALARY_CAP) 1 * (BONUS_POOL * WEIGHTS.salary)
    + min (max 0 ((ci.work_experiences : ℚ)) / EXP_CAP) 1 * (BONUS_POOL * WEIGHTS.experience)

/-- The credit score as a standalone expression: the zeta-expansion of
`credit_score` inside `_compute_scores`. -/
def creditOf (ci : CreditInputs) : ℤ :=
  roundHE (max BASE_SCORE (min (rawOf ci) (BASE_SCORE + BONUS_POOL)))

/-- The classification rule exactly as the spec states it (§4.2 step 6):
a total function of the pair `(credit_score, age)`, evaluated top-down. -/
def spec_classification (credit_score age : ℤ) : String :=
  if credit_score ≥ 720 ∧ 25 ≤ age ∧ age ≤ 65 then "high-value"
  else if credit_score ≥ 640 ∧ 21 ≤ age ∧ age ≤ 70 then "standard"
  else "risk"

/-- The empty input mapping `{}`. -/
def emptyRaw : RawInputs := ⟨none, none, none, none⟩

/-- Expected `classify_customer` response for the empty input mapping. -/
def classifyEmpty : ClassifyOutput :=
  ⟨500, "risk", 0, 0, 0, 0, 0, 0, 0,
   "Điểm thấp hoặc độ tuổi ngoài ngưỡng ưu tiên, rủi ro cao hơn."⟩

/-- Expected `score_breakdown` response for the empty input mapping. -/
def breakdownEmpty : BreakdownOutput :=
  ⟨500, 500, ⟨0, ASSET_CAP, 0, 0⟩, ⟨0, SALARY_CAP, 0, 0⟩, ⟨0, EXP_CAP, 0, 0⟩,
   WEIGHTS, BASE_SCORE, BONUS_POOL⟩

-- ----- helper lemmas -----

theorem compute_scores_raw (ci : CreditInputs) :
    (compute_scores ci).raw_score = rawOf ci := rfl

theorem compute_scores_credit (ci : CreditInputs) :
    (compute_scores ci).credit_score = creditOf ci := rfl

theorem compute_scores_asset_norm (ci : CreditInputs) :
    (compute_scores ci).asset.norm =
      roundDec 6 (min (max 0 ci.total_asset_value / ASSET_CAP) 1) := rfl

theorem compute_scores_salary_norm (ci : CreditInputs) :
    (compute_scores ci).salary.norm =
      roundDec 6 (min (max 0 ci.monthly_salary / SALARY_CAP) 1) := rfl

theorem compute_scores_experience_norm (ci : CreditInputs) :
    (compute_scores ci).experience.norm =
      roundDec 6 (min (max 0 ((ci.work_experiences : ℚ)) / EXP_CAP) 1) := rfl

theorem compute_scores_asset_points (ci : CreditInputs) :
    (compute_scores ci).asset.points =
      roundDec 2 (min (max 0 ci.total_asset_value / ASSET_CAP) 1
        * (BONUS_POOL * WEIGHTS.asset)) := rfl

theorem compute_scores_salary_points (ci : CreditInputs) :
    (compute_scores ci).salary.points =
      roundDec 2 (min (max 0 ci.monthly_salary / SALARY_CAP) 1
        * (BONUS_POOL * WEIGHTS.salary)) := rfl

theorem compute_scores_experience_points (ci : CreditInputs) :
    (compute_scores ci).experience.points =
      roundDec 2 (min (max 0 ((ci.work_experiences : ℚ)) / EXP_CAP) 1
        * (BONUS_POOL * WEIGHTS.experience)) := rfl

theorem compute_scores_classification (ci : CreditInputs) :
    (compute_scores ci).classification =
      spec_classification (creditOf ci) (max 0 ci.age) := by
  simp only [compute_scores, spec_classification, creditOf, rawOf]
  split_ifs <;> rfl

theorem floor_le_roundHE (q : ℚ) : ⌊q⌋ ≤ roundHE q := by
  unfold roundHE; split_ifs <;> omega

theorem roundHE_le_floor_add_one (q : ℚ) : roundHE q ≤ ⌊q⌋ + 1 := by
  unfold roundHE; split_ifs <;> omega

theorem roundHE_le_ceil (q : ℚ) : roundHE q ≤ ⌈q⌉ := by
  unfold roundHE
  have hfc := Int.floor_le_ceil q
  have hlt : 1 / 2 ≤ q - ⌊q⌋ → ⌊q⌋ + 1 ≤ ⌈q⌉ := by
    intro h
    have h2 : ((⌊q⌋ : ℚ)) < q := by linarith
    exact Int.add_one_le_iff.mpr (Int.lt_ceil.mpr h2)
  split_ifs <;> first | omega | (apply hlt; linarith)

theorem le_roundHE_of_le {n : ℤ} {q : ℚ} (h : (n : ℚ) ≤ q) : n ≤ roundHE q :=
  le_trans (Int.le_floor.mpr h) (floor_le_roundHE q)

theorem roundHE_le_of_le {n : ℤ} {q : ℚ} (h : q ≤ (n : ℚ)) : roundHE q ≤ n :=
  le_trans (roundHE_le_ceil q) (Int.ceil_le.mpr h)

theorem roundHE_mono {q q' : ℚ} (h : q ≤ q') : roundHE q ≤ roundHE q' := by
  rcases lt_or_le ⌊q⌋ ⌊q'⌋ with hf | hf
  · calc roundHE q ≤ ⌊q⌋ + 1 := roundHE_le_floor_add_one q
      _ ≤ ⌊q'⌋ := by omega
      _ ≤ roundHE q' := floor_le_roundHE q'
  · have hq : ⌊q⌋ = ⌊q'⌋ := le_antisymm (Int.floor_le_floor h) hf
    have hr : q - (⌊q'⌋ : ℚ) ≤ q' - (⌊q'⌋ : ℚ) := by linarith
    unfold roundHE
    rw [hq]
    split_ifs <;> first | omega | (exfalso; linarith)

theorem creditOf_ge (ci : CreditInputs) : 500 ≤ creditOf ci := by
  apply le_roundHE_of_le
  calc ((500 : ℤ) : ℚ) = BASE_SCORE := by norm_num [BASE_SCORE]
    _ ≤ _ := le_max_left _ _

theorem creditOf_le (ci : CreditInputs) : creditOf ci ≤ 800 := by
  apply roundHE_le_of_le
  apply max_le
  · norm_num [BASE_SCORE]
  · calc min (rawOf ci) (BASE_SCORE + BONUS_POOL) ≤ BASE_SCORE + BONUS_POOL :=
        min_le_right _ _
      _ ≤ ((800 : ℤ) : ℚ) := by norm_num [BASE_SCORE, BONUS_POOL]

theorem creditOf_mono_of_raw {ci ci' : CreditInputs} (h : rawOf ci ≤ rawOf ci') :
    creditOf ci ≤ creditOf ci' :=
  roundHE_mono (max_le_max le_rfl (min_le_min h le_rfl))

theorem norm_saturated {v cap : ℚ} (hcap : 0 < cap) (hv : cap ≤ v) :
    min (max 0 v / cap) 1 = 1 := by
  have hv0 : (0 : ℚ) ≤ v := le_trans hcap.le hv
  rw [max_eq_right hv0]
  exact min_eq_right ((one_le_div hcap).mpr hv)

theorem classify_ok_of_sanitize {inputs : RawInputs} {ci : CreditInputs}
    (hs : sanitize_and_cast inputs = .ok ci) {c : ClassifyOutput}
    (hc : classify_customer inputs = .ok c) :
    c.credit_score = creditOf ci := by
  rw [classify_customer, hs] at hc
  simp only [Except.ok.injEq] at hc
  rw [← hc]
  exact compute_scores_credit ci

theorem breakdown_ok_of_sanitize {inputs : RawInputs} {ci : CreditInputs}
    (hs : sanitize_and_cast inputs = .ok ci) {b : BreakdownOutput}
    (hb : score_breakdown inputs = .ok b) :
    b.credit_score = creditOf ci := by
  rw [score_breakdown, hs] at hb
  simp only [Except.ok.injEq] at hb
  rw [← hb]
  exact compute_scores_credit ci

-- ----- the claims -----

/-- Claim C1: for every input mapping that passes sanitization, the
credit score returned by both operations lies between `base_score` and
`base_score + bonus_pool`, i.e. between 500 and 800 under the default
configuration. -/
theorem credit_score_bounded (inputs : RawInputs) (c : ClassifyOutput)
    (b : BreakdownOutput) (hc : classify_customer inputs = .ok c)
    (hb : score_breakdown inputs = .ok b) :
    (500 ≤ c.credit_score ∧ c.credit_score ≤ 800) ∧
    (500 ≤ b.credit_score ∧ b.credit_score ≤ 800) ∧
    BASE_SCORE = 500 ∧ BASE_SCORE + BONUS_POOL = 800 := by
  cases hs : sanitize_and_cast inputs with
  | error e => rw [classify_customer, hs] at hc; simp at hc
  | ok ci =>
      rw [classify_ok_of_sanitize hs hc, breakdown_ok_of_sanitize hs hb]
      exact ⟨⟨creditOf_ge ci, creditOf_le ci⟩, ⟨creditOf_ge ci, creditOf_le ci⟩,
        by norm_num [BASE_SCORE], by norm_num [BASE_SCORE, BONUS_POOL]⟩

/-- Witness for C1 at the empty input mapping. -/
theorem credit_score_bounded_witness :
    (500 ≤ classifyEmpty.credit_score ∧ classifyEmpty.credit_score ≤ 800) ∧
    (500 ≤ breakdownEmpty.credit_score ∧ breakdownEmpty.credit_score ≤ 800) ∧
    BASE_SCORE = 500 ∧ BASE_SCORE + BONUS_POOL = 800 :=
  credit_score_bounded emptyRaw classifyEmpty breakdownEmpty
    (by norm_num [classify_customer, sanitize_and_cast, compute_scores, emptyRaw,
      classifyEmpty, getField, pyFloatOf, pyIntOf, roundDec, roundHE, BASE_SCORE,
      BONUS_POOL, ASSET_CAP, SALARY_CAP, EXP_CAP, WEIGHTS, min_def, max_def])
    (by norm_num [score_breakdown, sanitize_and_cast, compute_scores, emptyRaw,
      breakdownEmpty, getField, pyFloatOf, pyIntOf, roundDec, roundHE, BASE_SCORE,
      BONUS_POOL, ASSET_CAP, SALARY_CAP, EXP_CAP, WEIGHTS, min_def, max_def])

/-- Claim C2: for validated inputs, the credit score is monotone
non-decreasing in each of the three scorable factors (asset, salary,
experience) separately, the other fields held fixed. -/
theorem credit_score_monotone (a a' s s' : ℚ) (e e' g : ℤ)
    (ha : 0 ≤ a) (hsal : 0 ≤ s) (he : 0 ≤ e) (hg : 0 ≤ g) :
    (a ≤ a' → (compute_scores ⟨a, s, e, g⟩).credit_score
        ≤ (compute_scores ⟨a', s, e, g⟩).credit_score) ∧
    (s ≤ s' → (compute_scores ⟨a, s, e, g⟩).credit_score
        ≤ (compute_scores ⟨a, s', e, g⟩).credit_score) ∧
    (e ≤ e' → (compute_scores ⟨a, s, e, g⟩).credit_score
        ≤ (compute_scores ⟨a, s, e', g⟩).credit_score) := by
  have hcapA : (0:ℚ) < ASSET_CAP := by norm_num [ASSET_CAP]
  have hcapS : (0:ℚ) < SALARY_CAP := by norm_num [SALARY_CAP]
  have hcapE : (0:ℚ) < EXP_CAP := by norm_num [EXP_CAP]
  have hwA : (0:ℚ) ≤ BONUS_POOL * WEIGHTS.asset := by norm_num [BONUS_POOL, WEIGHTS]
  have hwS : (0:ℚ) ≤ BONUS_POOL * WEIGHTS.salary := by norm_num [BONUS_POOL, WEIGHTS]
  have hwE : (0:ℚ) ≤ BONUS_POOL * WEIGHTS.experience := by norm_num [BONUS_POOL, WEIGHTS]
  refine ⟨fun hle => ?_, fun hle => ?_, fun hle => ?_⟩ <;>
    (rw [compute_scores_credit, compute_scores_credit]
     apply creditOf_mono_of_raw
     simp only [rawOf]
     gcongr)

/-- Witness for C2 at concrete inputs. -/
theorem credit_score_monotone_witness :
    ((compute_scores ⟨0, 0, 0, 30⟩).credit_score
        ≤ (compute_scores ⟨1, 0, 0, 30⟩).credit_score) ∧
    ((compute_scores ⟨0, 0, 0, 30⟩).credit_score
        ≤ (compute_scores ⟨0, 1, 0, 30⟩).credit_score) ∧
    ((compute_scores ⟨0, 0, 0, 30⟩).credit_score
        ≤ (compute_scores ⟨0, 0, 1, 30⟩).credit_score) :=
  have h := credit_score_monotone 0 1 0 1 0 1 30
    (by norm_num) (by norm_num) (by norm_num) (by norm_num)
  ⟨h.1 (by norm_num), h.2.1 (by norm_num), h.2.2 (by norm_num)⟩

/-- Claim C3: for every validated input, the classification equals the
spec's top-down rule on `(credit_score, age)` and always yields one of
the three labels. -/
theorem classification_total_rule (ci : CreditInputs) (hage : 0 ≤ ci.age) :
    (compute_scores ci).classification
        = spec_classification (compute_scores ci).credit_score ci.age ∧
    ((compute_scores ci).classification = "high-value" ∨
     (compute_scores ci).classification = "standard" ∨
     (compute_scores ci).classification = "risk") := by
  have h1 := compute_scores_classification ci
  rw [max_eq_right hage] at h1
  refine ⟨by rw [h1, compute_scores_credit], ?_⟩
  rw [h1]; unfold spec_classification; split_ifs <;> simp

/-- Witness for C3 at a concrete validated input. -/
theorem classification_total_rule_witness :
    ((compute_scores ⟨0, 0, 0, 30⟩).classification
        = spec_classification (compute_scores ⟨0, 0, 0, 30⟩).credit_score 30 ∧
     ((compute_scores ⟨0, 0, 0, 30⟩).classification = "high-value" ∨
      (compute_scores ⟨0, 0, 0, 30⟩).classification = "standard" ∨
      (compute_scores ⟨0, 0, 0, 30⟩).classification = "risk")) :=
  classification_total_rule ⟨0, 0, 0, 30⟩ (by norm_num)

/-- Claim C4: whenever some field fails conversion or is negative after
conversion, both tools return the structured `invalid_input` error shape
(with identical details), and every error either tool can return carries
the error kind `"invalid_input"` — no other error kind exists.  Returning
the error value means the scoring engine is never reached. -/
theorem invalid_input_handling (inputs : RawInputs) :
    (((pyFloatOf (getField inputs.total_asset_value) = none ∨
       pyFloatOf (getField inputs.monthly_salary) = none ∨
       pyIntOf (getField inputs.work_experiences) = none ∨
       pyIntOf (getField inputs.age) = none) ∨
      ((∃ q, pyFloatOf (getField inputs.total_asset_value) = some q ∧ q < 0) ∨
       (∃ q, pyFloatOf (getField inputs.monthly_salary) = some q ∧ q < 0) ∨
       (∃ n, pyIntOf (getField inputs.work_experiences) = some n ∧ n < 0) ∨
       (∃ n, pyIntOf (getField inputs.age) = some n ∧ n < 0))) →
      ∃ d, classify_customer inputs = .error ⟨"invalid_input", d⟩ ∧
           score_breakdown inputs = .error ⟨"invalid_input", d⟩) ∧
    (∀ err, classify_customer inputs = .error err → err.error = "invalid_input") ∧
    (∀ err, score_breakdown inputs = .error err → err.error = "invalid_input") := by
  refine ⟨fun h => ?_, fun err herr => ?_, fun err herr => ?_⟩
  · suffices hs : ∃ d, sanitize_and_cast inputs = .error d by
      obtain ⟨d, hd⟩ := hs
      exact ⟨d, by rw [classify_customer, hd], by rw [score_breakdown, hd]⟩
    unfold sanitize_and_cast
    cases h1 : pyFloatOf (getField inputs.total_asset_value) with
    | none => exact ⟨_, rfl⟩
    | some q1 =>
      cases h2 : pyFloatOf (getField inputs.monthly_salary) with
      | none => exact ⟨_, rfl⟩
      | some q2 =>
        cases h3 : pyIntOf (getField inputs.work_experiences) with
        | none => exact ⟨_, rfl⟩
        | some n3 =>
          cases h4 : pyIntOf (getField inputs.age) with
          | none => exact ⟨_, rfl⟩
          | some n4 =>
            rcases h with (hn | hn | hn | hn) |
              (⟨q, hq, hneg⟩ | ⟨q, hq, hneg⟩ | ⟨n, hq, hneg⟩ | ⟨n, hq, hneg⟩)
            · rw [h1] at hn; exact absurd hn (by simp)
            · rw [h2] at hn; exact absurd hn (by simp)
            · rw [h3] at hn; exact absurd hn (by simp)
            · rw [h4] at hn; exact absurd hn (by simp)
            · rw [h1, Option.some.injEq] at hq; subst hq
              exact ⟨_, if_pos (Or.inl hneg)⟩
            · rw [h2, Option.some.injEq] at hq; subst hq
              exact ⟨_, if_pos (Or.inr (Or.inl hneg))⟩
            · rw [h3, Option.some.injEq] at hq; subst hq
              exact ⟨_, if_pos (Or.inr (Or.inr (Or.inl hneg)))⟩
            · rw [h4, Option.some.injEq] at hq; subst hq
              exact ⟨_, if_pos (Or.inr (Or.inr (Or.inr hneg)))⟩
  · cases hs : sanitize_and_cast inputs with
    | error d =>
        rw [classify_customer, hs] at herr
        simp only [Except.error.injEq] at herr
        rw [← herr]
    | ok ci => rw [classify_customer, hs] at herr; simp at herr
  · cases hs : sanitize_and_cast inputs with
    | error d =>
        rw [score_breakdown, hs] at herr
        simp only [Except.error.injEq] at herr
        rw [← herr]
    | ok ci => rw [score_breakdown, hs] at herr; simp at herr

/-- Witness for C4 at an input with a negative age. -/
theorem invalid_input_handling_witness :
    ∃ d, classify_customer ⟨none, none, none, some (.pyInt (-1))⟩
            = .error ⟨"invalid_input", d⟩ ∧
         score_breakdown ⟨none, none, none, some (.pyInt (-1))⟩
            = .error ⟨"invalid_input", d⟩ :=
  (invalid_input_handling ⟨none, none, none, some (.pyInt (-1))⟩).1
    (Or.inr (Or.inr (Or.inr (Or.inr ⟨-1, rfl, by norm_num⟩))))

/-- Claim C5: for every input mapping, `score_breakdown` and
`classify_customer` agree on `credit_score`, and fail on exactly the same
inputs with the identical error shape. -/
theorem single_source_of_truth (inputs : RawInputs) :
    Except.map ClassifyOutput.credit_score (classify_customer inputs)
      = Except.map BreakdownOutput.credit_score (score_breakdown inputs) := by
  cases hs : sanitize_and_cast inputs <;>
    simp [classify_customer, score_breakdown, hs, Except.map]

/-- Claim C6: once a factor's value reaches its cap, any further value at
or above the cap leaves its normalized ratio (saturated at 1), its earned
points, and the credit score unchanged. -/
theorem factor_saturation (a a' s s' : ℚ) (e e' g : ℤ) :
    (ASSET_CAP ≤ a → ASSET_CAP ≤ a' →
      min (max 0 a / ASSET_CAP) 1 = 1 ∧
      (compute_scores ⟨a, s, e, g⟩).asset.norm
          = (compute_scores ⟨a', s, e, g⟩).asset.norm ∧
      (compute_scores ⟨a, s, e, g⟩).asset.points
          = (compute_scores ⟨a', s, e, g⟩).asset.points ∧
      (compute_scores ⟨a, s, e, g⟩).credit_score
          = (compute_scores ⟨a', s, e, g⟩).credit_score) ∧
    (SALARY_CAP ≤ s → SALARY_CAP ≤ s' →
      min (max 0 s / SALARY_CAP) 1 = 1 ∧
      (compute_scores ⟨a, s, e, g⟩).salary.norm
          = (compute_scores ⟨a, s', e, g⟩).salary.norm ∧
      (compute_scores ⟨a, s, e, g⟩).salary.points
          = (compute_scores ⟨a, s', e, g⟩).salary.points ∧
      (compute_scores ⟨a, s, e, g⟩).credit_score
          = (compute_scores ⟨a, s', e, g⟩).credit_score) ∧
    (EXP_CAP ≤ ((e : ℚ)) → EXP_CAP ≤ ((e' : ℚ)) →
      min (max 0 ((e : ℚ)) / EXP_CAP) 1 = 1 ∧
      (compute_scores ⟨a, s, e, g⟩).experience.norm
          = (compute_scores ⟨a, s, e', g⟩).experience.norm ∧
      (compute_scores ⟨a, s, e, g⟩).experience.points
          = (compute_scores ⟨a, s, e', g⟩).experience.points ∧
      (compute_scores ⟨a, s, e, g⟩).credit_score
          = (compute_scores ⟨a, s, e', g⟩).credit_score) := by
  refine ⟨fun h h' => ?_, fun h h' => ?_, fun h h' => ?_⟩
  · have hn := norm_saturated (show (0:ℚ) < ASSET_CAP by norm_num [ASSET_CAP]) h
    have hn' := norm_saturated (show (0:ℚ) < ASSET_CAP by norm_num [ASSET_CAP]) h'
    refine ⟨hn, ?_, ?_, ?_⟩
    · rw [compute_scores_asset_norm, compute_scores_asset_norm]
      dsimp only
      rw [hn, hn']
    · rw [compute_scores_asset_points, compute_scores_asset_points]
      dsimp only
      rw [hn, hn']
    · rw [compute_scores_credit, compute_scores_credit]
      unfold creditOf rawOf
      dsimp only
      rw [hn, hn']
  · have hn := norm_saturated (show (0:ℚ) < SALARY_CAP by norm_num [SALARY_CAP]) h
    have hn' := norm_saturated (show (0:ℚ) < SALARY_CAP by norm_num [SALARY_CAP]) h'
    refine ⟨hn, ?_, ?_, ?_⟩
    · rw [compute_scores_salary_norm, compute_scores_salary_norm]
      dsimp only
      rw [hn, hn']
    · rw [compute_scores_salary_points, compute_scores_salary_points]
      dsimp only
      rw [hn, hn']
    · rw [compute_scores_credit, compute_scores_credit]
      unfold creditOf rawOf
      dsimp only
      rw [hn, hn']
  · have hn := norm_saturated (show (0:ℚ) < EXP_CAP by norm_num [EXP_CAP]) h
    have hn' := norm_saturated (show (0:ℚ) < EXP_CAP by norm_num [EXP_CAP]) h'
    refine ⟨hn, ?_, ?_, ?_⟩
    · rw [compute_scores_experience_norm, compute_scores_experience_norm]
      dsimp only
      rw [hn, hn']
    · rw [compute_scores_experience_points, compute_scores_experience_points]
      dsimp only
      rw [hn, hn']
    · rw [compute_scores_credit, compute_scores_credit]
      unfold creditOf rawOf
      dsimp only
      rw [hn, hn']

/-- Witness for C6 with each factor at and above its cap. -/
theorem factor_saturation_witness :
    (min (max 0 (10000000000 : ℚ) / ASSET_CAP) 1 = 1 ∧
      (compute_scores ⟨10000000000, 200000000, 40, 30⟩).asset.norm
          = (compute_scores ⟨20000000000, 200000000, 40, 30⟩).asset.norm ∧
      (compute_scores ⟨10000000000, 200000000, 40, 30⟩).asset.points
          = (compute_scores ⟨20000000000, 200000000, 40, 30⟩).asset.points ∧
      (compute_scores ⟨10000000000, 200000000, 40, 30⟩).credit_score
          = (compute_scores ⟨20000000000, 200000000, 40, 30⟩).credit_score) ∧
    (min (max 0 (200000000 : ℚ) / SALARY_CAP) 1 = 1 ∧
      (compute_scores ⟨10000000000, 200000000, 40, 30⟩).salary.norm
          = (compute_scores ⟨10000000000, 300000000, 40, 30⟩).salary.norm ∧
      (compute_scores ⟨10000000000, 200000000, 40, 30⟩).salary.points
          = (compute_scores ⟨10000000000, 300000000, 40, 30⟩).salary.points ∧
      (compute_scores ⟨10000000000, 200000000, 40, 30⟩).credit_score
          = (compute_scores ⟨10000000000, 300000000, 40, 30⟩).credit_score) ∧
    (min (max 0 (((40 : ℤ) : ℚ)) / EXP_CAP) 1 = 1 ∧
      (compute_scores ⟨10000000000, 200000000, 40, 30⟩).experience.norm
          = (compute_scores ⟨10000000000, 200000000, 50, 30⟩).experience.norm ∧
      (compute_scores ⟨10000000000, 200000000, 40, 30⟩).experience.points
          = (compute_scores ⟨10000000000, 200000000, 50, 30⟩).experience.points ∧
      (compute_scores ⟨10000000000, 200000000, 40, 30⟩).credit_score
          = (compute_scores ⟨10000000000, 200000000, 50, 30⟩).credit_score) :=
  have h := factor_saturation 10000000000 20000000000 200000000 300000000 40 50 30
  ⟨h.1 (by norm_num [ASSET_CAP]) (by norm_num [ASSET_CAP]),
   h.2.1 (by norm_num [SALARY_CAP]) (by norm_num [SALARY_CAP]),
   h.2.2 (by norm_num [EXP_CAP]) (by norm_num [EXP_CAP])⟩

/-- Claim C7: `raw_score` and `credit_score` are computed from the
unrounded normalized ratios and factor scores; the 6-digit and 2-digit
roundings apply only to the breakdown values placed in the response. -/
theorem rounding_for_display_only (ci : CreditInputs) :
    (compute_scores ci).raw_score
        = BASE_SCORE
          + min (max 0 ci.total_asset_value / ASSET_CAP) 1
              * (BONUS_POOL * WEIGHTS.asset)
          + min (max 0 ci.monthly_salary / SALARY_CAP) 1
              * (BONUS_POOL * WEIGHTS.salary)
          + min (max 0 ((ci.work_experiences : ℚ)) / EXP_CAP) 1
              * (BONUS_POOL * WEIGHTS.experience) ∧
    (compute_scores ci).credit_score
        = roundHE (max BASE_SCORE
            (min (compute_scores ci).raw_score (BASE_SCORE + BONUS_POOL))) ∧
    (compute_scores ci).asset.norm
        = roundDec 6 (min (max 0 ci.total_asset_value / ASSET_CAP) 1) ∧
    (compute_scores ci).salary.norm
        = roundDec 6 (min (max 0 ci.monthly_salary / SALARY_CAP) 1) ∧
    (compute_scores ci).experience.norm
        = roundDec 6 (min (max 0 ((ci.work_experiences : ℚ)) / EXP_CAP) 1) ∧
    (compute_scores ci).asset.points
        = roundDec 2 (min (max 0 ci.total_asset_value / ASSET_CAP) 1
            * (BONUS_POOL * WEIGHTS.asset)) ∧
    (compute_scores ci).salary.points
        = roundDec 2 (min (max 0 ci.monthly_salary / SALARY_CAP) 1
            * (BONUS_POOL * WEIGHTS.salary)) ∧
    (compute_scores ci).experience.points
        = roundDec 2 (min (max 0 ((ci.work_experiences : ℚ)) / EXP_CAP) 1
            * (BONUS_POOL * WEIGHTS.experience)) :=
  ⟨rfl, rfl, rfl, rfl, rfl, rfl, rfl, rfl⟩

/-- Claim C8: the empty input mapping defaults every field to zero and
yields `credit_score = 500 = base_score` and classification `"risk"`; the
explicit all-zero input with age 30 does the same. -/
theorem empty_and_zero_inputs :
    Except.map ClassifyOutput.credit_score (classify_customer emptyRaw) = .ok 500 ∧
    Except.map ClassifyOutput.classification (classify_customer emptyRaw)
        = .ok "risk" ∧
    Except.map ClassifyOutput.credit_score
        (classify_customer ⟨some (.pyInt 0), some (.pyInt 0), some (.pyInt 0),
          some (.pyInt 30)⟩) = .ok 500 ∧
    Except.map ClassifyOutput.classification
        (classify_customer ⟨some (.pyInt 0), some (.pyInt 0), some (.pyInt 0),
          some (.pyInt 30)⟩) = .ok "risk" ∧
    BASE_SCORE = 500 := by
  norm_num [classify_customer, sanitize_and_cast, compute_scores, emptyRaw, getField,
    pyFloatOf, pyIntOf, roundDec, roundHE, Except.map, BASE_SCORE, BONUS_POOL,
    ASSET_CAP, SALARY_CAP, EXP_CAP, WEIGHTS, min_def, max_def]

/-- Claim C9: the input with every factor exactly at its cap and age 30
yields `credit_score = 800` and classification `"high-value"`. -/
theorem all_caps_input :
    Except.map ClassifyOutput.credit_score
        (classify_customer ⟨some (.pyFloat 10000000000), some (.pyFloat 200000000),
          some (.pyInt 40), some (.pyInt 30)⟩) = .ok 800 ∧
    Except.map ClassifyOutput.classification
        (classify_customer ⟨some (.pyFloat 10000000000), some (.pyFloat 200000000),
          some (.pyInt 40), some (.pyInt 30)⟩) = .ok "high-value" := by
  norm_num [classify_customer, sanitize_and_cast, compute_scores, getField,
    pyFloatOf, pyIntOf, roundDec, roundHE, Except.map, BASE_SCORE, BONUS_POOL,
    ASSET_CAP, SALARY_CAP, EXP_CAP, WEIGHTS, min_def, max_def]

/-- Claim C10: a non-integral number supplied for `work_experiences` or
`age` passes sanitization and is truncated toward zero; the same value as
a decimal string fails integer conversion and yields the `invalid_input`
error shape. -/
theorem float_vs_string_noninteger :
    (sanitize_and_cast ⟨none, none, some (.pyFloat (29 / 10)), some (.pyInt 30)⟩
        = .ok ⟨0, 0, 2, 30⟩) ∧
    (classify_customer ⟨none, none, some (.pyStr "2.9"), some (.pyInt 30)⟩
        = .error ⟨"invalid_input", "Invalid input types"⟩) ∧
    (sanitize_and_cast ⟨none, none, some (.pyInt 2), some (.pyFloat (29 / 10))⟩
        = .ok ⟨0, 0, 2, 2⟩) ∧
    (classify_customer ⟨none, none, some (.pyInt 2), some (.pyStr "2.9")⟩
        = .error ⟨"invalid_input", "Invalid input types"⟩) := by
  have hstr : pyIntOfStr "2.9" = none := by decide
  refine ⟨?_, ?_, ?_, ?_⟩ <;>
    norm_num [classify_customer, sanitize_and_cast, getField, pyFloatOf, pyIntOf,
      truncQ, hstr]

end CreditEval
